import Mathlib

/-!
Verification of the airball-state-recorder webhook service (src/main.py).

The Python module is embedded shallowly:

* `get_us_state_from_phone_number` is modelled over a `PhoneEnv` oracle that
  stands for the external `phonenumbers` library (`parse`, `is_valid_number`,
  `geocoder.description_for_number`, `national_number`); Python exceptions are
  modelled with `Except PyExn`, and the function's `try/except` blocks become
  the catch-all wrapper `get_us_state_from_phone_number`.
* The outbound Aircall HTTP interaction is modelled by an `AircallNet` oracle
  (the result of the GET status query) plus an explicit trace of the remote
  calls issued (`RemoteCall`); the handler `handle_webhook` returns the JSON
  response together with that trace.
* Repeated deliveries are modelled by `handleTwice`, which threads a faithful
  platform state (`CallState`) through two successive invocations: the PATCH
  sets the call's `recording` flag, and the GET reads it.
-/

namespace Airball

/-- Python truthiness of an optional string: `None` and `""` are falsy. -/
def pyTruthy : Option String → Bool
  | none => false
  | some s => s != ""

/-- Python exceptions relevant to `get_us_state_from_phone_number`:
`phonenumbers.NumberParseException`, the `IndexError` raised by `[-1]` on an
empty list, and any other exception (caught by the final `except Exception`). -/
inductive PyExn
  | numberParseException
  | indexError
  | otherError
deriving DecidableEq, Repr

instance {ε α : Type} [DecidableEq ε] [DecidableEq α] : DecidableEq (Except ε α) :=
  fun x y =>
    match x, y with
    | .ok a, .ok b =>
      if h : a = b then isTrue (by rw [h])
      else isFalse (by intro hc; injection hc; exact h (by assumption))
    | .error a, .error b =>
      if h : a = b then isTrue (by rw [h])
      else isFalse (by intro hc; injection hc; exact h (by assumption))
    | .ok _, .error _ => isFalse (by intro hc; cases hc)
    | .error _, .ok _ => isFalse (by intro hc; cases hc)

/-- The parsed-number value returned by `phonenumbers.parse`; the embedding
keeps the one piece of data the module reads from it, the national number. -/
structure ParsedNum where
  nationalNumber : Nat
deriving DecidableEq, Repr

/-- Oracle for the external `phonenumbers` library: parsing (which may raise),
validity, and the geocoder description (which may raise; `""` models the
"no description" case, exactly as the Python code branches on falsiness). -/
structure PhoneEnv where
  parse : String → Except PyExn ParsedNum
  isValid : ParsedNum → Bool
  description : ParsedNum → Except PyExn String

/-- `TWO_PARTY_STATES` from src/main.py, lines 18-21. -/
def TWO_PARTY_STATES : List String :=
  ["CA", "DE", "FL", "IL", "MD", "MA", "MI", "MT", "NH", "OR", "PA", "WA", "CT"]

/-- `AREA_CODE_TO_STATE` from src/main.py, lines 26-57. -/
def AREA_CODE_TO_STATE : List (String × String) :=
  [("213", "CA"), ("310", "CA"), ("415", "CA"), ("408", "CA"), ("818", "CA"),
   ("619", "CA"), ("510", "CA"),
   ("203", "CT"), ("860", "CT"),
   ("302", "DE"),
   ("305", "FL"), ("407", "FL"), ("561", "FL"), ("813", "FL"), ("904", "FL"),
   ("312", "IL"), ("773", "IL"), ("847", "IL"),
   ("301", "MD"), ("410", "MD"), ("443", "MD"),
   ("617", "MA"), ("781", "MA"), ("508", "MA"),
   ("313", "MI"), ("248", "MI"), ("734", "MI"),
   ("406", "MT"),
   ("603", "NH"),
   ("503", "OR"), ("541", "OR"), ("971", "OR"),
   ("215", "PA"), ("412", "PA"), ("717", "PA"), ("610", "PA"),
   ("206", "WA"), ("253", "WA"), ("425", "WA"),
   ("212", "NY"), ("646", "NY"), ("718", "NY"),
   ("214", "TX"), ("512", "TX"), ("713", "TX"),
   ("703", "VA"), ("804", "VA")]

/-- `AREA_CODE_TO_STATE.get(area_code)` (dictionary lookup). -/
def lookupAreaCode (ac : String) : Option String :=
  AREA_CODE_TO_STATE.lookup ac

/-- Splitting a character list at whitespace, dropping nothing yet; the
accumulator holds the current word reversed. -/
def splitWsAux : List Char → List Char → List (List Char)
  | [], cur => [cur.reverse]
  | c :: cs, cur =>
    if c.isWhitespace then cur.reverse :: splitWsAux cs []
    else splitWsAux cs (c :: cur)

/-- Python's no-argument `str.split()`: split on whitespace runs, dropping
empty pieces. -/
def pySplitWs (s : String) : List String :=
  ((splitWsAux s.toList []).filter fun w => w ≠ []).map String.mk

/-- Python's `str.upper()` (ASCII case mapping, matching the inputs here). -/
def pyUpper (s : String) : String :=
  String.mk (s.toList.map Char.toUpper)

/-- Python's `str.lower()`. -/
def pyLower (s : String) : String :=
  String.mk (s.toList.map Char.toLower)

/-- Python's `str.startswith(pre)`. -/
def pyStartsWith (s pre : String) : Bool :=
  go s.toList pre.toList
where
  go : List Char → List Char → Bool
    | _, [] => true
    | [], _ :: _ => false
    | c :: cs, p :: ps => c == p && go cs ps

/-- `state_province.split()[-1].upper()` — indexing `[-1]` on an empty list
raises `IndexError` (the description was whitespace-only). -/
def lastWordUpper (s : String) : Except PyExn String :=
  match (pySplitWs s).getLast? with
  | some w => .ok (pyUpper w)
  | none => .error .indexError

/-- `str(phonenumbers.national_number(parsed_number))[:3]`. -/
def first3 (n : Nat) : String :=
  String.mk ((Nat.repr n).toList.take 3)

/-- The `try:` body of `get_us_state_from_phone_number` (src/main.py lines
78-92), in the exception monad: parse, validity check, geocoder description
with last-word extraction, and the area-code fallback. -/
def stateLookupCore (env : PhoneEnv) (phone_number : String) :
    Except PyExn (Option String) :=
  match env.parse phone_number with
  | .error e => .error e
  | .ok parsed =>
    if !(env.isValid parsed) then .ok none
    else
      match env.description parsed with
      | .error e => .error e
      | .ok state_province =>
        if state_province != "" then
          match lastWordUpper state_province with
          | .error e => .error e
          | .ok w => .ok (some w)
        else
          .ok (lookupAreaCode (first3 parsed.nationalNumber))

/-- `get_us_state_from_phone_number` (src/main.py lines 70-98): the early
return on a falsy argument, then the `try:` body with both `except` clauses
mapping every exception to `None`. -/
def get_us_state_from_phone_number (env : PhoneEnv) (phone_number : String) :
    Option String :=
  if phone_number = "" then none
  else
    match stateLookupCore env phone_number with
    | .ok v => v
    | .error _ => none

/-- Process configuration read from the environment (src/main.py lines 61-68):
the two Aircall credentials and the raw default-behavior variable. -/
structure Config where
  api_id : Option String
  api_token : Option String
  default_behavior_env : Option String
deriving DecidableEq, Repr

/-- `DEFAULT_RECORDING_BEHAVIOR = os.getenv(..., "skip").lower()`. -/
def DEFAULT_RECORDING_BEHAVIOR (cfg : Config) : String :=
  pyLower (cfg.default_behavior_env.getD "skip")

/-- `AIRCALL_API_ID and AIRCALL_API_TOKEN and call_id` (the guard both around
the enable block and inside `get_call_recording_status`). -/
def credsOk (cfg : Config) (call_id : Option String) : Bool :=
  pyTruthy cfg.api_id && pyTruthy cfg.api_token && pyTruthy call_id

/-- The remote HTTP calls the module can issue: the GET status query and the
PATCH that enables recording. (The code issues no other remote call; in
particular there is no pause-recording POST anywhere in src/main.py.) -/
inductive RemoteCall
  | getCall (id : String)
  | patchRecording (id : String)
deriving DecidableEq, Repr

/-- Oracle for the network outcome of the GET status query:
`some b` is a 2xx response whose JSON `recording` field is `b`; `none` covers
an HTTP/network error or an absent `recording` field — every case in which
`get_call_recording_status` returns `None` after issuing the request. -/
structure AircallNet where
  getRecording : String → Option Bool

/-- `get_call_recording_status` (src/main.py lines 100-127): returns `None`
without any request when credentials or the call id are missing; otherwise
issues the GET and returns the `recording` field (errors become `None`).
The second component is the trace of remote calls issued. -/
def get_call_recording_status (cfg : Config) (net : AircallNet)
    (call_id : Option String) : Option Bool × List RemoteCall :=
  if credsOk cfg call_id then
    ((net.getRecording (call_id.getD "")), [RemoteCall.getCall (call_id.getD "")])
  else
    (none, [])

/-- The enable-recording block that appears verbatim twice in the handler
(src/main.py lines 176-210 and 219-246): guard on credentials and call id,
query current status, and PATCH `{"recording": true}` unless the status is
already `True`. PATCH failures are caught and only logged, so the trace
records the attempt and nothing else escapes. -/
def attemptEnableRecording (cfg : Config) (net : AircallNet)
    (call_id : Option String) : List RemoteCall :=
  if credsOk cfg call_id then
    let r := get_call_recording_status cfg net call_id
    if r.1 != some true then
      r.2 ++ [RemoteCall.patchRecording (call_id.getD "")]
    else
      r.2
  else
    []

/-- One entry of the `participants` array: `p.get("type")` and, when the
`"phone_number"` key is present, its value. -/
structure Participant where
  ptype : Option String
  phoneField : Option String
deriving DecidableEq, Repr

/-- The `data` object of the payload: `call_data.get("id")`,
`call_data.get("raw_digits")` and `call_data.get("participants", [])`. -/
structure CallData where
  callId : Option String
  rawDigits : Option String
  participants : List Participant
deriving DecidableEq, Repr

/-- `payload.get("data", {})` when `"data"` is absent. -/
def CallData.empty : CallData := ⟨none, none, []⟩

/-- The inbound webhook payload: the event-kind field and the `data` object.
(src/main.py reads only `payload.get("data", {})`; the event field is carried
here because the spec talks about it, and the handler never looks at it.) -/
structure Payload where
  event : Option String
  data : Option CallData
deriving DecidableEq, Repr

/-- The participants fallback loop (src/main.py lines 150-154): first entry
whose `type` is `"external"` and which has a `"phone_number"` key. -/
def firstExternalPhone : List Participant → Option String
  | [] => none
  | p :: ps =>
    if p.ptype == some "external" && p.phoneField.isSome then p.phoneField
    else firstExternalPhone ps

/-- Phone extraction (src/main.py lines 147-154): `raw_digits` if truthy,
otherwise the participants fallback; when the loop finds nothing the original
falsy value is kept. -/
def extractPhone (cd : CallData) : Option String :=
  if pyTruthy cd.rawDigits then cd.rawDigits
  else
    match firstExternalPhone cd.participants with
    | some v => some v
    | none => cd.rawDigits

/-- The phone number the handler works with, for a given payload. -/
def phoneOf (payload : Payload) : Option String :=
  extractPhone (payload.data.getD CallData.empty)

/-- The call id the handler works with, for a given payload. -/
def callIdOf (payload : Payload) : Option String :=
  (payload.data.getD CallData.empty).callId

/-- The US gate (src/main.py line 160): `phone_number` truthy and
`phone_number.startswith("+1")` on the raw, unnormalized string. -/
def usGate (pn : Option String) : Bool :=
  pyTruthy pn && pyStartsWith (pn.getD "") "+1"

/-- `state in TWO_PARTY_STATES` — Python membership; `None` is not in the set. -/
def stateMem : Option String → Bool
  | none => false
  | some s => TWO_PARTY_STATES.contains s

/-- A JSON value occurring in the handler's responses. -/
inductive JVal
  | str (v : String)
  | bool (v : Bool)
deriving DecidableEq, Repr

/-- The four response shapes produced by `handle_webhook`. -/
inductive Resp
  | recordingOff (state : String)
  | recordingOn (state : String)
  | nonUsNumber
  | unknownState
deriving DecidableEq, Repr

/-- The JSON content of each response, as written in src/main.py. -/
def Resp.content : Resp → List (String × JVal)
  | .recordingOff st => [("recording", .bool false), ("state", .str st)]
  | .recordingOn st => [("recording", .bool true), ("state", .str st)]
  | .nonUsNumber => [("status", .str "non_us_number")]
  | .unknownState => [("status", .str "unknown_state")]

/-- Every `JSONResponse` in src/main.py carries `status_code=200`. -/
def Resp.statusCode : Resp → Nat := fun _ => 200

/-- The `"status"` field of the response, when the response has one. -/
def Resp.statusField : Resp → Option String
  | .nonUsNumber => some "non_us_number"
  | .unknownState => some "unknown_state"
  | _ => none

/-- `handle_webhook` (src/main.py lines 130-251): phone extraction, the raw
`+1` gate, state resolution, the two-party short-circuit, the one-party
enable path, and the unknown-state default branch. Returns the response and
the trace of remote calls issued. -/
def handle_webhook (cfg : Config) (env : PhoneEnv) (net : AircallNet)
    (payload : Payload) : Resp × List RemoteCall :=
  let pn := phoneOf payload
  if !(usGate pn) then
    (.nonUsNumber, [])
  else
    let state := get_us_state_from_phone_number env (pn.getD "")
    if stateMem state then
      (.recordingOff (state.getD ""), [])
    else if pyTruthy state then
      (.recordingOn (state.getD ""), attemptEnableRecording cfg net (callIdOf payload))
    else if DEFAULT_RECORDING_BEHAVIOR cfg = "record" then
      (.recordingOn "unknown", attemptEnableRecording cfg net (callIdOf payload))
    else
      (.unknownState, [])

/-- The per-call remote platform state: the `recording` field its GET reports
(`none` models a call object without the field). -/
structure CallState where
  recording : Option Bool
deriving DecidableEq, Repr

/-- Faithful platform semantics: the PATCH sets `recording` to `true`, the GET
changes nothing. -/
def applyRemoteCall (s : CallState) : RemoteCall → CallState
  | .getCall _ => s
  | .patchRecording _ => ⟨some true⟩

/-- Run a trace of remote calls against the platform state. -/
def runCalls (s : CallState) (calls : List RemoteCall) : CallState :=
  calls.foldl applyRemoteCall s

/-- The network oracle a faithful platform in state `s` presents: the GET
returns the stored `recording` field. -/
def netOf (s : CallState) : AircallNet :=
  ⟨fun _ => s.recording⟩

/-- Two successive deliveries of the same payload against a faithful platform
starting in state `s0`: the second invocation's GET sees the effect of the
first invocation's remote calls. -/
def handleTwice (cfg : Config) (env : PhoneEnv) (payload : Payload)
    (s0 : CallState) : (Resp × List RemoteCall) × (Resp × List RemoteCall) :=
  let r1 := handle_webhook cfg env (netOf s0) payload
  let r2 := handle_webhook cfg env (netOf (runCalls s0 r1.2)) payload
  (r1, r2)

/-- Number of state-changing (PATCH) calls in a trace. -/
def countPatches (calls : List RemoteCall) : Nat :=
  (calls.filter fun c =>
    match c with
    | .patchRecording _ => true
    | .getCall _ => false).length

/-- Modelled from the spec: the Number Normalizer's normalization step,
"strip non-significant formatting characters (spaces, hyphens, parentheses)
before any prefix check". src/main.py performs no such stripping; this
definition exists only to compare the spec's words with the code. -/
def stripFormatting (s : String) : String :=
  String.mk (s.toList.filter fun c =>
    !(c == ' ' || c == '-' || c == '(' || c == ')'))

/-! ### Concrete fixtures

Environments that model the phonenumbers library's behavior on the handful of
concrete numbers used to instantiate the theorems, plus concrete
configurations and payloads. -/

/-- Library oracle for the NY number +1 212 555 1234: parses, valid, and the
geocoder yields no description, so the area-code fallback fires. -/
def envNY : PhoneEnv :=
  ⟨fun s => if s = "+12125551234" then .ok ⟨2125551234⟩ else .error .numberParseException,
   fun _ => true, fun _ => .ok ""⟩

/-- Library oracle for the CA number +1 213 555 0100 with an empty geocoder
description (area-code fallback fires). -/
def envCA : PhoneEnv :=
  ⟨fun s => if s = "+12135550100" then .ok ⟨2135550100⟩ else .error .numberParseException,
   fun _ => true, fun _ => .ok ""⟩

/-- Library oracle for the same CA number when the geocoder returns the full
state name "California" rather than an abbreviation. -/
def envCalifornia : PhoneEnv :=
  ⟨fun s => if s = "+12135550100" then .ok ⟨2135550100⟩ else .error .numberParseException,
   fun _ => true, fun _ => .ok "California"⟩

/-- Library oracle for a valid number with the unassigned area code 999 and no
geocoder description: the state is unresolvable. -/
def env999 : PhoneEnv :=
  ⟨fun s => if s = "+19995551234" then .ok ⟨9995551234⟩ else .error .numberParseException,
   fun _ => true, fun _ => .ok ""⟩

/-- Credentials configured, default-behavior variable unset (so "skip"). -/
def cfgFull : Config := ⟨some "id1", some "tok1", none⟩

/-- Credentials configured, default behavior "record". -/
def cfgRecord : Config := ⟨some "id1", some "tok1", some "record"⟩

/-- No credentials configured, default behavior "record". -/
def cfgRecordNoCreds : Config := ⟨none, none, some "record"⟩

/-- No credentials configured, default-behavior variable unset. -/
def cfgNoCreds : Config := ⟨none, none, none⟩

/-- A GET status query that reports recording disabled. -/
def netFalse : AircallNet := ⟨fun _ => some false⟩

/-- Event `call.answered`, call id c1, raw digits +1 212 555 1234. -/
def payloadNY : Payload :=
  ⟨some "call.answered", some ⟨some "c1", some "+12125551234", []⟩⟩

/-- Event `call.answered`, call id c1, raw digits +1 213 555 0100. -/
def payloadCA : Payload :=
  ⟨some "call.answered", some ⟨some "c1", some "+12135550100", []⟩⟩

/-- Event `call.answered`, call id c1, raw digits +1 999 555 1234. -/
def payload999 : Payload :=
  ⟨some "call.answered", some ⟨some "c1", some "+19995551234", []⟩⟩

/-- A UK number: the stripped form still fails the +1 prefix test. -/
def payloadUK : Payload :=
  ⟨some "call.answered", some ⟨some "c1", some "+447911123456", []⟩⟩

/-- An unrecognized event kind over the NY call data. -/
def payloadBogusEvent : Payload :=
  ⟨some "call.whatever_unrecognized", some ⟨some "c1", some "+12125551234", []⟩⟩

/-! ### Helper lemmas -/

lemma mem_of_getLast?_eq {α : Type} {l : List α} {a : α}
    (h : l.getLast? = some a) : a ∈ l := by
  induction l with
  | nil => simp at h
  | cons x xs ih =>
    cases xs with
    | nil =>
      simp at h
      simp [h]
    | cons y ys =>
      rw [List.getLast?_cons_cons] at h
      exact List.mem_cons_of_mem _ (ih h)

lemma lookup_val_mem {l : List (String × String)} {k v : String}
    (h : l.lookup k = some v) : v ∈ l.map Prod.snd := by
  induction l with
  | nil => simp [List.lookup] at h
  | cons p ps ih =>
    obtain ⟨k1, v1⟩ := p
    rw [List.lookup] at h
    split at h
    · cases h
      simp
    · simp only [List.map_cons, List.mem_cons]
      exact Or.inr (ih h)

lemma lookupAreaCode_ne_empty {ac st : String}
    (h : lookupAreaCode ac = some st) : st ≠ "" := by
  unfold lookupAreaCode at h
  have hmem := lookup_val_mem h
  have hall : ∀ v ∈ AREA_CODE_TO_STATE.map Prod.snd, v ≠ "" := by decide
  exact hall st hmem

lemma string_mk_ne_empty {l : List Char} (h : l ≠ []) : String.mk l ≠ "" := by
  cases l with
  | nil => exact absurd rfl h
  | cons c cs =>
    intro hc
    have := congrArg String.data hc
    simp at this

lemma pyUpper_ne_empty {s : String} (h : s ≠ "") : pyUpper s ≠ "" := by
  cases s with
  | mk l =>
    cases l with
    | nil => exact absurd rfl h
    | cons c cs => exact string_mk_ne_empty (by simp [pyUpper])

lemma pySplitWs_mem_ne_empty {s w : String} (h : w ∈ pySplitWs s) : w ≠ "" := by
  unfold pySplitWs at h
  rcases List.mem_map.mp h with ⟨l, hl, rfl⟩
  exact string_mk_ne_empty (by simpa using List.of_mem_filter hl)

lemma lastWordUpper_ne_empty {s w : String}
    (h : lastWordUpper s = .ok w) : w ≠ "" := by
  unfold lastWordUpper at h
  cases hg : (pySplitWs s).getLast? with
  | none => rw [hg] at h; cases h
  | some x =>
    rw [hg] at h
    cases h
    exact pyUpper_ne_empty (pySplitWs_mem_ne_empty (mem_of_getLast?_eq hg))

/-- Every state the resolver reports is a nonempty string: the last word of a
description is a nonempty word, and every area-code table value is nonempty.
So the handler's `elif state` truthiness test always passes for a resolved
state. -/
lemma resolved_state_ne_empty {env : PhoneEnv} {pn st : String}
    (h : get_us_state_from_phone_number env pn = some st) : st ≠ "" := by
  unfold get_us_state_from_phone_number at h
  split at h
  · cases h
  · cases hc : stateLookupCore env pn with
    | error e => rw [hc] at h; simp at h
    | ok v =>
      rw [hc] at h
      simp only [] at h
      subst h
      unfold stateLookupCore at hc
      cases hp : env.parse pn with
      | error e => simp [hp] at hc
      | ok parsed =>
        simp only [hp] at hc
        split at hc
        · simp at hc
        · cases hd : env.description parsed with
          | error e => simp [hd] at hc
          | ok sp =>
            simp only [hd] at hc
            split at hc
            · cases hl : lastWordUpper sp with
              | error e => simp [hl] at hc
              | ok w =>
                simp only [hl, Except.ok.injEq] at hc
                injection hc with h2
                rw [← h2]
                exact lastWordUpper_ne_empty hl
            · simp only [Except.ok.injEq] at hc
              exact lookupAreaCode_ne_empty hc

/-- If the raw string starts with "+1", so does its stripped form: stripping
removes only spaces, hyphens and parentheses, never a leading plus or digit.
Hence the raw prefix test of src/main.py line 160 is at least as strict as the
spec's stripped prefix test. -/
lemma pyStartsWith_stripFormatting {s : String}
    (h : pyStartsWith s "+1" = true) :
    pyStartsWith (stripFormatting s) "+1" = true := by
  obtain ⟨l⟩ := s
  match l with
  | [] => simp [pyStartsWith, pyStartsWith.go, String.toList] at h
  | [c] => simp [pyStartsWith, pyStartsWith.go, String.toList] at h
  | c :: c2 :: rest =>
    simp [pyStartsWith, pyStartsWith.go, String.toList] at h
    obtain ⟨h1, h2⟩ := h
    subst h1; subst h2
    simp [stripFormatting, pyStartsWith, pyStartsWith.go, String.toList]

/-! ### The claims -/

/-- C1: for every resolved state in the fixed two-party set
{CA, DE, FL, IL, MD, MA, MI, MT, NH, OR, PA, WA, CT} the handler decides
do-not-record (response recording=false, no remote calls), and for every
resolved state outside the set it takes the one-party enable path (response
recording=true). The hypothesis fixes only the resolver's output, so this
holds regardless of whether the state came from the geolocation description
or the area-code fallback. -/
theorem two_party_set_decides_policy (cfg : Config) (env : PhoneEnv)
    (net : AircallNet) (payload : Payload) (st : String)
    (hgate : usGate (phoneOf payload) = true)
    (hstate : get_us_state_from_phone_number env ((phoneOf payload).getD "") = some st) :
    (st ∈ TWO_PARTY_STATES →
      handle_webhook cfg env net payload = (Resp.recordingOff st, []))
    ∧ (st ∉ TWO_PARTY_STATES →
      handle_webhook cfg env net payload
        = (Resp.recordingOn st, attemptEnableRecording cfg net (callIdOf payload))) := by
  have hne := resolved_state_ne_empty hstate
  constructor
  · intro hmem
    unfold handle_webhook
    simp [hgate, hstate, stateMem, hmem]
  · intro hmem
    unfold handle_webhook
    simp [hgate, hstate, stateMem, hmem, pyTruthy, hne]

/-- Witness for C1: a CA call (two-party, via the area-code fallback) is not
recorded; an NY call (one-party) takes the enable path. -/
theorem two_party_set_decides_policy_witness :
    handle_webhook cfgFull envCA netFalse payloadCA = (Resp.recordingOff "CA", [])
    ∧ handle_webhook cfgFull envNY netFalse payloadNY
        = (Resp.recordingOn "NY", attemptEnableRecording cfgFull netFalse (callIdOf payloadNY)) :=
  ⟨(two_party_set_decides_policy cfgFull envCA netFalse payloadCA "CA"
      (by decide) (by decide)).1 (by decide),
   (two_party_set_decides_policy cfgFull envNY netFalse payloadNY "NY"
      (by decide) (by decide)).2 (by decide)⟩

/-- C2 (counterexample): when the geocoder describes +1 213 555 0100 as
"California", resolution returns "CALIFORNIA" — a ten-letter string that is
not a canonical two-letter abbreviation — instead of discarding it and using
the area-code fallback, which would have produced "CA". It is also not in the
two-party set, so the call would be routed to the one-party enable path. -/
theorem full_state_name_propagates :
    get_us_state_from_phone_number envCalifornia "+12135550100" = some "CALIFORNIA"
    ∧ String.length "CALIFORNIA" = 10
    ∧ lookupAreaCode "213" = some "CA"
    ∧ TWO_PARTY_STATES.contains "CALIFORNIA" = false :=
  ⟨by decide, by decide, by decide, by decide⟩

/-- C2 (amended): for a parseable, valid number, a non-empty geolocation
description resolves to its uppercased last word with no validation against
recognized state abbreviations, and the area-code fallback is consulted only
when the description is empty. -/
theorem resolver_returns_last_word_unvalidated (env : PhoneEnv) (pn : String)
    (parsed : ParsedNum) (sp : String)
    (h0 : pn ≠ "") (hp : env.parse pn = Except.ok parsed)
    (hv : env.isValid parsed = true)
    (hd : env.description parsed = Except.ok sp) :
    (∀ w : String, (pySplitWs sp).getLast? = some w →
      get_us_state_from_phone_number env pn = some (pyUpper w))
    ∧ (sp = "" →
      get_us_state_from_phone_number env pn
        = lookupAreaCode (first3 parsed.nationalNumber)) := by
  constructor
  · intro w hw
    have hsp : sp ≠ "" := by
      intro he
      subst he
      simp [pySplitWs, splitWsAux, String.toList] at hw
    unfold get_us_state_from_phone_number stateLookupCore
    simp [h0, hp, hv, hd, hsp, lastWordUpper, hw]
  · intro he
    subst he
    unfold get_us_state_from_phone_number stateLookupCore
    simp [h0, hp, hv, hd]

/-- Witness for C2 (amended): the "California" description resolves to the
uppercased full name. -/
theorem resolver_returns_last_word_unvalidated_witness :
    get_us_state_from_phone_number envCalifornia "+12135550100"
      = some (pyUpper "California") :=
  (resolver_returns_last_word_unvalidated envCalifornia "+12135550100"
    ⟨2135550100⟩ "California" (by decide) (by decide) (by decide) (by decide)).1
    "California" (by decide)

/-- C3 (counterexample): the second of two successive deliveries of the same
payload (same call id "c1") is processed in full — it issues a remote status
query and returns the normal recording response; its status field is absent,
not "duplicate_skipped". -/
theorem repeat_delivery_fully_reprocessed :
    (handleTwice cfgFull envNY payloadNY ⟨some false⟩).2
      = (Resp.recordingOn "NY", [RemoteCall.getCall "c1"])
    ∧ Resp.statusField (Resp.recordingOn "NY") = none
    ∧ Resp.content (Resp.recordingOn "NY")
        = [("recording", JVal.bool true), ("state", JVal.str "NY")] :=
  ⟨by decide, by decide, by decide⟩

/-- C3 (amended): the handler keeps no deduplication record and no
"duplicate_skipped" outcome exists anywhere in the code: every response's
status field is absent or one of "non_us_number" / "unknown_state". -/
theorem no_duplicate_skipped_outcome (cfg : Config) (env : PhoneEnv)
    (net : AircallNet) (payload : Payload) :
    (handle_webhook cfg env net payload).1.statusField = none
    ∨ (handle_webhook cfg env net payload).1.statusField = some "non_us_number"
    ∨ (handle_webhook cfg env net payload).1.statusField = some "unknown_state" := by
  cases h : (handle_webhook cfg env net payload).1 <;> simp [Resp.statusField]

/-- C4 (counterexample): a call resolving to the two-party state CA produces
zero remote calls — no pause-recording attempt exists in the code — and the
response is the do-not-record payload, not a pause outcome. -/
theorem two_party_call_without_pause_attempt :
    handle_webhook cfgFull envCA netFalse payloadCA = (Resp.recordingOff "CA", [])
    ∧ Resp.content (Resp.recordingOff "CA")
        = [("recording", JVal.bool false), ("state", JVal.str "CA")]
    ∧ List.length ([] : List RemoteCall) = 0 :=
  ⟨by decide, rfl, rfl⟩

/-- C4 (amended): for every call whose number resolves to a two-party state,
the dispatcher short-circuits with {recording:false, state} (HTTP 200) and
issues no remote call of any kind — neither a pause nor an enable. -/
theorem two_party_short_circuit_no_remote_calls (cfg : Config) (env : PhoneEnv)
    (net : AircallNet) (payload : Payload) (st : String)
    (hgate : usGate (phoneOf payload) = true)
    (hstate : get_us_state_from_phone_number env ((phoneOf payload).getD "") = some st)
    (hmem : st ∈ TWO_PARTY_STATES) :
    handle_webhook cfg env net payload = (Resp.recordingOff st, [])
    ∧ countPatches ([] : List RemoteCall) = 0
    ∧ Resp.statusCode (Resp.recordingOff st) = 200 := by
  refine ⟨?_, rfl, rfl⟩
  unfold handle_webhook
  simp [hgate, hstate, stateMem, hmem]

/-- Witness for C4 (amended). -/
theorem two_party_short_circuit_no_remote_calls_witness :
    handle_webhook cfgRecord envCA netFalse payloadCA = (Resp.recordingOff "CA", []) :=
  (two_party_short_circuit_no_remote_calls cfgRecord envCA netFalse payloadCA "CA"
    (by decide) (by decide) (by decide)).1

/-- C5 (counterexample): with the default behavior configured to "record" but
credentials unset, an unresolvable number (area code 999) yields the response
{recording:true, state:"unknown"} while no enable attempt is made at all —
the claim's "it attempts to enable recording" fails. -/
theorem default_record_without_creds_silent :
    DEFAULT_RECORDING_BEHAVIOR cfgRecordNoCreds = "record"
    ∧ get_us_state_from_phone_number env999 "+19995551234" = none
    ∧ handle_webhook cfgRecordNoCreds env999 netFalse payload999
        = (Resp.recordingOn "unknown", [])
    ∧ countPatches ([] : List RemoteCall) = 0 :=
  ⟨by decide, by decide, by decide, rfl⟩

/-- C5 (amended): for an unresolved state, any default other than "record"
(including the unconfigured default "skip") returns {"status":"unknown_state"}
with no remote call; default "record" returns {recording:true,
state:"unknown"} and runs the enable-attempt block, which issues remote calls
only when credentials and the call id are present (it is silently empty
otherwise). -/
theorem unknown_state_default_routing (cfg : Config) (env : PhoneEnv)
    (net : AircallNet) (payload : Payload)
    (hgate : usGate (phoneOf payload) = true)
    (hstate : get_us_state_from_phone_number env ((phoneOf payload).getD "") = none) :
    (DEFAULT_RECORDING_BEHAVIOR cfg ≠ "record" →
      handle_webhook cfg env net payload = (Resp.unknownState, []))
    ∧ (DEFAULT_RECORDING_BEHAVIOR cfg = "record" →
      handle_webhook cfg env net payload
        = (Resp.recordingOn "unknown", attemptEnableRecording cfg net (callIdOf payload)))
    ∧ (credsOk cfg (callIdOf payload) = false →
      attemptEnableRecording cfg net (callIdOf payload) = []) := by
  refine ⟨?_, ?_, ?_⟩
  · intro hd
    unfold handle_webhook
    simp [hgate, hstate, stateMem, pyTruthy, hd]
  · intro hd
    unfold handle_webhook
    simp [hgate, hstate, stateMem, pyTruthy, hd]
  · intro hcr
    unfold attemptEnableRecording
    simp [hcr]

/-- Witness for C5 (amended): area code 999 with default unset yields
unknown_state and no calls; with default "record" and credentials set it
yields the recording response plus the enable-attempt trace. -/
theorem unknown_state_default_routing_witness :
    handle_webhook cfgFull env999 netFalse payload999 = (Resp.unknownState, [])
    ∧ handle_webhook cfgRecord env999 netFalse payload999
        = (Resp.recordingOn "unknown",
           attemptEnableRecording cfgRecord netFalse (callIdOf payload999)) :=
  ⟨(unknown_state_default_routing cfgFull env999 netFalse payload999
      (by decide) (by decide)).1 (by decide),
   (unknown_state_default_routing cfgRecord env999 netFalse payload999
      (by decide) (by decide)).2.1 (by decide)⟩

/-- C6: whenever the extracted phone number is absent, or its form stripped of
spaces, hyphens and parentheses does not start with "+1", the handler returns
{"status":"non_us_number"} with HTTP 200 and an empty remote-call trace. This
holds because the raw prefix check of src/main.py line 160 is at least as
strict as the stripped check; and the two example numbers are treated
equivalently by the gate, since each literally starts with "+1". -/
theorem stripped_prefix_gate_rejects_non_us (cfg : Config) (env : PhoneEnv)
    (net : AircallNet) (payload : Payload)
    (h : pyTruthy (phoneOf payload) = false
       ∨ pyStartsWith (stripFormatting ((phoneOf payload).getD "")) "+1" = false) :
    handle_webhook cfg env net payload = (Resp.nonUsNumber, [])
    ∧ Resp.statusCode Resp.nonUsNumber = 200
    ∧ usGate (some "+1 (213) 555-0100") = usGate (some "+12135550100") := by
  have hg : usGate (phoneOf payload) = false := by
    rcases h with h | h
    · simp [usGate, h]
    · cases hs : pyStartsWith ((phoneOf payload).getD "") "+1" with
      | false => simp [usGate, hs]
      | true =>
        rw [pyStartsWith_stripFormatting hs] at h
        cases h
  refine ⟨?_, rfl, by decide⟩
  unfold handle_webhook
  simp [hg]

/-- Witness for C6: a UK number fails the stripped prefix test and is
rejected as non-US. -/
theorem stripped_prefix_gate_rejects_non_us_witness :
    handle_webhook cfgFull envNY netFalse payloadUK = (Resp.nonUsNumber, []) :=
  (stripped_prefix_gate_rejects_non_us cfgFull envNY netFalse payloadUK
    (Or.inr (by decide))).1

/-- C7: on the enable path (one-party state, credentials and call id present,
recording not already enabled), the first delivery issues the status query
followed by one PATCH; against a faithful platform the second delivery's
status query reports already-enabled, so it issues no PATCH — two successive
invocations make exactly one state-changing remote call, and each invocation
queries before patching. -/
theorem enable_path_idempotent (cfg : Config) (env : PhoneEnv)
    (payload : Payload) (st : String) (s0 : CallState)
    (hgate : usGate (phoneOf payload) = true)
    (hstate : get_us_state_from_phone_number env ((phoneOf payload).getD "") = some st)
    (hmem : st ∉ TWO_PARTY_STATES)
    (hcreds : credsOk cfg (callIdOf payload) = true)
    (hrec : s0.recording ≠ some true) :
    (handleTwice cfg env payload s0).1.2
      = [RemoteCall.getCall ((callIdOf payload).getD ""),
         RemoteCall.patchRecording ((callIdOf payload).getD "")]
    ∧ (handleTwice cfg env payload s0).2.2
      = [RemoteCall.getCall ((callIdOf payload).getD "")]
    ∧ countPatches ((handleTwice cfg env payload s0).1.2
        ++ (handleTwice cfg env payload s0).2.2) = 1 := by
  have hne := resolved_state_ne_empty hstate
  have h1 : handle_webhook cfg env (netOf s0) payload
      = (Resp.recordingOn st,
         [RemoteCall.getCall ((callIdOf payload).getD ""),
          RemoteCall.patchRecording ((callIdOf payload).getD "")]) := by
    unfold handle_webhook
    simp [hgate, hstate, stateMem, hmem, pyTruthy, hne, attemptEnableRecording,
      get_call_recording_status, hcreds, netOf, hrec]
  have h2 : handle_webhook cfg env (netOf ⟨some true⟩) payload
      = (Resp.recordingOn st, [RemoteCall.getCall ((callIdOf payload).getD "")]) := by
    unfold handle_webhook
    simp [hgate, hstate, stateMem, hmem, pyTruthy, hne, attemptEnableRecording,
      get_call_recording_status, hcreds, netOf]
  have hrun : runCalls s0 [RemoteCall.getCall ((callIdOf payload).getD ""),
      RemoteCall.patchRecording ((callIdOf payload).getD "")] = ⟨some true⟩ := by
    simp [runCalls, applyRemoteCall]
  unfold handleTwice
  rw [h1]
  simp only [hrun, h2]
  simp [countPatches]

/-- Witness for C7: the NY call patched once across two deliveries. -/
theorem enable_path_idempotent_witness :
    countPatches ((handleTwice cfgFull envNY payloadNY ⟨some false⟩).1.2
      ++ (handleTwice cfgFull envNY payloadNY ⟨some false⟩).2.2) = 1 :=
  (enable_path_idempotent cfgFull envNY payloadNY "NY" ⟨some false⟩
    (by decide) (by decide) (by decide) (by decide) (by decide)).2.2

/-- C8 (counterexample): with no credentials configured, an NY call takes the
enable path, skips the remote call — and still reports the normal outcome
{recording:true, state:"NY"} with HTTP 200 and no status field; there is no
"credentials_missing" outcome and no 500 response in the code. -/
theorem missing_creds_normal_response :
    handle_webhook cfgNoCreds envNY netFalse payloadNY = (Resp.recordingOn "NY", [])
    ∧ Resp.statusCode (Resp.recordingOn "NY") = 200
    ∧ Resp.statusField (Resp.recordingOn "NY") = none :=
  ⟨by decide, rfl, rfl⟩

/-- C8 (amended): when credentials or the call id are missing on a path that
would enable recording, the dispatcher skips the remote call entirely but
reports the normal recording outcome with HTTP 200 (no distinct
credentials-missing outcome exists). -/
theorem missing_creds_skips_remote_reports_recording (cfg : Config)
    (env : PhoneEnv) (net : AircallNet) (payload : Payload) (st : String)
    (hgate : usGate (phoneOf payload) = true)
    (hstate : get_us_state_from_phone_number env ((phoneOf payload).getD "") = some st)
    (hmem : st ∉ TWO_PARTY_STATES)
    (hcreds : credsOk cfg (callIdOf payload) = false) :
    handle_webhook cfg env net payload = (Resp.recordingOn st, [])
    ∧ Resp.statusCode (Resp.recordingOn st) = 200
    ∧ Resp.statusField (Resp.recordingOn st) = none := by
  have hne := resolved_state_ne_empty hstate
  refine ⟨?_, rfl, rfl⟩
  unfold handle_webhook
  simp [hgate, hstate, stateMem, hmem, pyTruthy, hne, attemptEnableRecording, hcreds]

/-- Witness for C8 (amended). -/
theorem missing_creds_skips_remote_reports_recording_witness :
    handle_webhook cfgNoCreds envNY netFalse payloadNY = (Resp.recordingOn "NY", []) :=
  (missing_creds_skips_remote_reports_recording cfgNoCreds envNY netFalse payloadNY "NY"
    (by decide) (by decide) (by decide) (by decide)).1

/-- C9 (counterexample): a delivery with an unrecognized event kind over the
same call data is processed in full — remote calls are issued and the
response is the normal recording outcome, not {"status":"ignored_event"}
(its status field is absent). -/
theorem unrecognized_event_fully_processed :
    handle_webhook cfgFull envNY netFalse payloadBogusEvent
      = (Resp.recordingOn "NY",
         [RemoteCall.getCall "c1", RemoteCall.patchRecording "c1"])
    ∧ Resp.statusField (Resp.recordingOn "NY") = none :=
  ⟨by decide, rfl⟩

/-- C9 (amended): the handler never reads the event-kind field, so deliveries
of any two event kinds over the same call data produce identical responses
and identical remote-call traces. -/
theorem event_kind_never_read (cfg : Config) (env : PhoneEnv) (net : AircallNet)
    (e1 e2 : Option String) (d : Option CallData) :
    handle_webhook cfg env net ⟨e1, d⟩ = handle_webhook cfg env net ⟨e2, d⟩ := rfl

/-- C10: state resolution never propagates an exception across its boundary:
the falsy-input early return yields None, every exception outcome of the
try-block body (parse failure, the IndexError of the last-word indexing, any
other error) is caught and mapped to None, and a normal body outcome is
returned as-is. Together with totality of the Lean function this covers every
input string and every library behavior. -/
theorem state_resolution_never_raises (env : PhoneEnv) (pn : String) :
    (pn = "" → get_us_state_from_phone_number env pn = none)
    ∧ (∀ e : PyExn, stateLookupCore env pn = Except.error e →
      get_us_state_from_phone_number env pn = none)
    ∧ (∀ v : Option String, stateLookupCore env pn = Except.ok v → pn ≠ "" →
      get_us_state_from_phone_number env pn = v) := by
  refine ⟨?_, ?_, ?_⟩
  · intro h
    unfold get_us_state_from_phone_number
    simp [h]
  · intro e h
    unfold get_us_state_from_phone_number
    by_cases hpn : pn = ""
    · simp [hpn]
    · simp [hpn, h]
  · intro v h hpn
    unfold get_us_state_from_phone_number
    simp [hpn, h]

end Airball
